import Mathlib

/-!
Verification development for the SEIR+ COVID model (`SEIR+.py`).

The Python class `SEIR` is shallowly embedded over exact rationals:

* `differential` is the ODE right-hand side (source lines 121-136);
* `odeint` models the scipy integrator by its documented interface contract
  (one output row per requested time point, first row equal to the initial
  condition), with the numerical steps between time points represented by an
  explicit Euler step; `predict` wraps it exactly as the source does;
* `normalizeKN` is the degenerate-input normalization performed on every
  likelihood channel of `objective` (source lines 254-263);
* `binomPmf` is the exact binomial probability mass function, returning 0
  outside the valid domain (scipy returns 0 for non-integer or out-of-range
  `k` and the invalid-domain NaN is never strictly positive, so the branch
  behaviour of the source is preserved);
* `LogLik` represents a per-channel log-likelihood term symbolically, since
  the source only ever branches on whether the pmf is strictly positive
  before taking the logarithm;
* `fit` models the in-place parameter update performed after the optimizer
  returns (source lines 214-226), with the optimizer result supplied as an
  oracle value;
* `contaList`, `importedCol1`/`importedCol7`, `sensibTerm`, `bestStep` embed
  the incidence derivation of `objective`, the dataset preparation of
  `import_dataset` and the error sweep of `sensib_finder`.
-/

/-- The 9-dimensional compartment state `(S, E, I, R, H, C, D, CT, CH)`. -/
structure SEIRState where
  S : ℚ
  E : ℚ
  I : ℚ
  R : ℚ
  H : ℚ
  C : ℚ
  D : ℚ
  CT : ℚ
  CH : ℚ
deriving Repr, DecidableEq

/-- The 9 components returned by the ODE right-hand side, in the source's
return order `(dS, dE, dI, dR, dH, dC, dD, dCT, dCH)`. -/
structure SEIRDeriv where
  dS : ℚ
  dE : ℚ
  dI : ℚ
  dR : ℚ
  dH : ℚ
  dC : ℚ
  dD : ℚ
  dCT : ℚ
  dCH : ℚ
deriving Repr, DecidableEq

/-- The 10 scalar model parameters
`(beta, sigma, gamma, hp, hcr, pc, pd, pcr, s, t)`. -/
structure Params where
  beta : ℚ
  sigma : ℚ
  gamma : ℚ
  hp : ℚ
  hcr : ℚ
  pc : ℚ
  pd : ℚ
  pcr : ℚ
  s : ℚ
  t : ℚ
deriving Repr, DecidableEq

/-- Embedding of `SEIR.differential` (source lines 121-136).  The `time` argument is
accepted and ignored exactly as in the source.  Division is exact rational
division; the mixing-population denominator is `S + I + E + R + H + C + D`
as written on source lines 125-126. -/
def differential (state : SEIRState) (_time : ℚ) (beta sigma gamma hp hcr pc pd pcr _s _t : ℚ) :
    SEIRDeriv :=
  let S := state.S
  let E := state.E
  let I := state.I
  let R := state.R
  let H := state.H
  let C := state.C
  let D := state.D
  { dS := -(beta * S * I) / (S + I + E + R + H + C + D)
    dE := ((beta * S * I) / (S + I + E + R + H + C + D)) - (sigma * E)
    dI := (sigma * E) - (gamma * I) - (hp * I)
    dR := (gamma * I) + (hcr * H) + (pcr * C)
    dH := (hp * I) - (hcr * H) - (pc * H)
    dC := (pc * H) - (pd * C) - (pcr * C)
    dD := (pd * C)
    dCT := sigma * E
    dCH := hp * I }

/-- The degenerate-input normalization applied to each `(k, n)` pair before
every binomial pmf evaluation in `objective` (source lines 254-263):
if both are negative negate both; if `k > n` swap; if `k` is still negative
set `k := 1` and then add `k + 1` (that is, `2`) to `n`. -/
def normalizeKN (k n : ℚ) : ℚ × ℚ :=
  let p1 := if k < 0 ∧ n < 0 then (-k, -n) else (k, n)
  let p2 := if p1.1 > p1.2 then (p1.2, p1.1) else p1
  if p2.1 < 0 then (1, p2.2 + 2) else p2

/-- Round-half-to-even, the rounding performed by Python's built-in `round`
and by `numpy.around` on the (exactly representable) values fed to them by
the source. -/
def pyRound (x : ℚ) : ℤ :=
  let f := ⌊x⌋
  let r := x - (f : ℚ)
  if r < 1/2 then f
  else if 1/2 < r then f + 1
  else if f % 2 = 0 then f else f + 1

/-- Exact binomial probability mass function `C(n, k) pᵏ (1-p)^(n-k)` for
integer arguments, and `0` outside the domain `0 ≤ k ≤ n` (scipy's
`binom.pmf` returns `0` for out-of-range `k`; for invalid `n` it returns
NaN, which like `0` fails the source's `prob > 0` test, so `0` reproduces
the branch the source takes in every degenerate case). -/
def binomPmf (k n : ℤ) (p : ℚ) : ℚ :=
  if 0 ≤ k ∧ k ≤ n then
    (Nat.choose n.toNat k.toNat : ℚ) * p ^ k.toNat * (1 - p) ^ (n - k).toNat
  else 0

/-- A per-channel log-likelihood value as the source manipulates it: either
the logarithm of a (floating-point) pmf value, kept symbolic, or the fixed
overflow floor constant substituted when the pmf is not strictly positive. -/
inductive LogLik where
  | log (pmf : ℚ)
  | floor (c : ℤ)
deriving Repr, DecidableEq

/-- The guarded per-channel term of `objective` (source lines 265-269):
the source computes `prob = binom.pmf(k, n, p)` and keeps `log(prob)` only
when `prob > 0`, otherwise it substitutes `self.overflow`.  `pmfVal` is the
pmf value the branch inspects (in the source a floating-point number, which
can be `0` by underflow even on a valid domain). -/
def channelLogLik (overflow : ℤ) (pmfVal : ℚ) : LogLik :=
  if 0 < pmfVal then LogLik.log pmfVal else LogLik.floor overflow

/-- The overflow floor constant `self.overflow` (source line 59). -/
def overflowFloor : ℤ := -1000

/-- The `(k, n, p)` triple actually passed to `binom.pmf` on a channel with
smoothing factor `m`: the raw pair is normalized, then `n` is multiplied by
`m` (source line 264) while `p = 1/m` (source line 253). -/
def channelInputs (k n : ℚ) (m : ℕ) : ℚ × ℚ × ℚ :=
  let kn := normalizeKN k n
  (kn.1, kn.2 * (m : ℚ), 1 / (m : ℚ))

/-- One explicit Euler step of size `t1 - t0`, standing in for the
integrator's internal numerical advance between two consecutive
requested time points. -/
def eulerStep (f : SEIRState → ℚ → SEIRDeriv) (y : SEIRState) (t0 t1 : ℚ) : SEIRState :=
  let d := f y t0
  let h := t1 - t0
  { S := y.S + h * d.dS
    E := y.E + h * d.dE
    I := y.I + h * d.dI
    R := y.R + h * d.dR
    H := y.H + h * d.dH
    C := y.C + h * d.dC
    D := y.D + h * d.dD
    CT := y.CT + h * d.dCT
    CH := y.CH + h * d.dCH }

/-- Rows after the first produced by the integrator, one per remaining
requested time point. -/
def odeintGo (f : SEIRState → ℚ → SEIRDeriv) (y : SEIRState) (t : ℚ) :
    List ℚ → List SEIRState
  | [] => []
  | t1 :: rest =>
    let y1 := eulerStep f y t t1
    y1 :: odeintGo f y1 t1 rest

/-- Model of `scipy.integrate.odeint` by its documented interface contract:
it returns one output row per requested time point and its first output row
is the initial condition `y0` itself; the numerical steps between
consecutive time points are modelled by `eulerStep`. -/
def odeint (f : SEIRState → ℚ → SEIRDeriv) (y0 : SEIRState) :
    List ℚ → List SEIRState
  | [] => []
  | t0 :: rest => y0 :: odeintGo f y0 t0 rest

/-- The integer time grid `numpy.arange(duration)` (source line 141). -/
def arange (duration : ℕ) : List ℚ :=
  (List.range duration).map (Nat.cast : ℕ → ℚ)

/-- Embedding of `SEIR.predict` (source lines 138-156) with an explicit initial state and
parameter record: integrate `differential` over the grid `0 .. duration-1`. -/
def predict (duration : ℕ) (init : SEIRState) (prm : Params) : List SEIRState :=
  odeint
    (fun y τ => differential y τ prm.beta prm.sigma prm.gamma prm.hp prm.hcr
      prm.pc prm.pd prm.pcr prm.s prm.t)
    init (arange duration)

/-- Embedding of `SEIR.predict` as called with a raw tuple of parameter values: `odeint`
unpacks the tuple as the trailing arguments of `differential`, which demands
exactly 10 of them — any other tuple length raises a `TypeError` inside the
integrator's first callback invocation, modelled here by `none`. -/
def predictArgs (duration : ℕ) (init : SEIRState) (args : List ℚ) :
    Option (List SEIRState) :=
  match args with
  | [beta, sigma, gamma, hp, hcr, pc, pd, pcr, s, t] =>
    some (predict duration init
      { beta := beta, sigma := sigma, gamma := gamma, hp := hp, hcr := hcr,
        pc := pc, pd := pd, pcr := pcr, s := s, t := t })
  | _ => none

/-- The 4-element parameter tuple `(self.beta, self.sigma, self.gamma,
self.s)` built by `sensib_finder` (source line 445). -/
def sensibParams (prm : Params) : List ℚ :=
  [prm.beta, prm.sigma, prm.gamma, prm.s]

/-- One row of the prepared dataset, with the source's column layout:
0 = time index, 1 = daily positive tests, 2 = tested, 3 = hospitalized,
4 = cumulative hospitalized, 5 = critical, 6 = deaths,
7 = appended cumulative positive column. -/
structure ObsRow where
  timeIdx : ℚ
  numPositive : ℚ
  numTested : ℚ
  numHospit : ℚ
  numCumulHospit : ℚ
  numCritical : ℚ
  numFatal : ℚ
  cumulPositive : ℚ
deriving Repr, DecidableEq

/-- The mutable fields of the `SEIR` object that the claims mention:
the 10 parameters, the dataset, the channel weights, the overflow floor,
the smoothing toggle, the binomial smoothing factors, the optimizer step,
the 20 bound edges and the optimizer-choice flags (source lines 16-100). -/
structure SEIRModel where
  prm : Params
  dataset : List ObsRow
  w_1 : ℚ
  w_2 : ℚ
  w_3 : ℚ
  w_4 : ℚ
  w_5 : ℚ
  w_6 : ℚ
  overflow : ℤ
  smoothing : Bool
  b_s_1 : ℕ
  b_s_2 : ℕ
  b_s_3 : ℕ
  b_s_4 : ℕ
  b_s_5 : ℕ
  b_s_6 : ℕ
  opti_step : ℚ
  beta_min : ℚ
  beta_max : ℚ
  sigma_min : ℚ
  sigma_max : ℚ
  gamma_min : ℚ
  gamma_max : ℚ
  hp_min : ℚ
  hp_max : ℚ
  hcr_min : ℚ
  hcr_max : ℚ
  pc_min : ℚ
  pc_max : ℚ
  pd_min : ℚ
  pd_max : ℚ
  pcr_min : ℚ
  pcr_max : ℚ
  s_min : ℚ
  s_max : ℚ
  t_min : ℚ
  t_max : ℚ
  cobyla : Bool
  LBFGSB : Bool
  auto : Bool
deriving DecidableEq

/-- The value `scipy.optimize.minimize` hands back: the result vector
`res.x` together with its success flag (which the source never reads). -/
structure OptResult where
  x : Fin 10 → ℚ
  success : Bool

/-- The tail of `SEIR.fit` (source lines 214-226): the optimizer result
vector is written into the 10 parameter fields, component by component,
with no success-code check and no other field touched. -/
def fit (m : SEIRModel) (res : OptResult) : SEIRModel :=
  { m with prm :=
    { beta := res.x 0, sigma := res.x 1, gamma := res.x 2, hp := res.x 3,
      hcr := res.x 4, pc := res.x 5, pd := res.x 6, pcr := res.x 7,
      s := res.x 8, t := res.x 9 } }

/-- The incidence derivation of `objective` (source lines 237-240), applied
to the cumulative-infection column `CT` of the prediction: the source first
appends `pred[0][7]`, then for every `i` in `0 .. N-1` appends
`pred[i][7] - pred[i-1][7]`, where at `i = 0` the Python index `-1`
silently wraps around to the last row. -/
def contaList (ct : List ℚ) : List ℚ :=
  ct.headD 0 ::
    (List.range ct.length).map (fun i =>
      ct.getD i 0 - (if i = 0 then ct.getD (ct.length - 1) 0 else ct.getD (i - 1) 0))

/-- The incidence series as claim C3 states it: `incidence[0] = CT[0]` and
`incidence[i] = CT[i] - CT[i-1]` for `i > 0`, no wraparound. -/
def incidenceClaim (ct : List ℚ) : List ℚ :=
  (List.range ct.length).map (fun i =>
    if i = 0 then ct.getD 0 0 else ct.getD i 0 - ct.getD (i - 1) 0)

/-- The dataset-preparation core of `import_dataset` (source lines 413-416)
acting on the raw `num_positive` column: entry 0 is overwritten with `1`,
and the resulting column is what the source stores. -/
def importedCol1 (numPositive : List ℚ) : List ℚ :=
  numPositive.set 0 1

/-- The column the source appends at position 7 (source lines 415-416): a
verbatim copy of the mutated `num_positive` column — no cumulative sum is
taken. -/
def importedCol7 (numPositive : List ℚ) : List ℚ :=
  importedCol1 numPositive

/-- Running cumulative sums of a list (`cumsum[i] = l[0] + ... + l[i]`). -/
def cumsum : List ℚ → List ℚ
  | [] => []
  | x :: xs => x :: (cumsum xs).map (fun y => x + y)

/-- Column 7 as claim C4 states it: the cumulative sum of column 1 with
row 0 forced to `1` before cumulation. -/
def cumulPositiveClaim (numPositive : List ℚ) : List ℚ :=
  cumsum (numPositive.set 0 1)

/-- One per-time-step term of the error computed inside `sensib_finder`
(source lines 451-461): `p` is the candidate sensitivity halved, `n` is the
predicted hospitalized value doubled and rounded, `k` is the rounded
observation, and a log-pmf that is `-inf` or NaN is replaced by `-1000`
(an exact pmf that is not strictly positive is exactly the degenerate
case). -/
def sensibTerm (s predH obs : ℚ) : LogLik :=
  let p := s / 2
  let n := pyRound (predH * 2)
  let k := pyRound obs
  let prob := binomPmf k n p
  if 0 < prob then LogLik.log prob else LogLik.floor (-1000)

/-- The per-grid-point error terms of `sensib_finder` as the source computes
them: at each time step `k` is taken from dataset column 1 — the observed
daily positive tests `self.dataset[i][1]` (source line 455) — and `n` from
the predicted hospitalized compartment `pred[i][4]` (source line 454). -/
def sensibTermsCode (s : ℚ) (pred : List SEIRState) (data : List ObsRow) : List LogLik :=
  List.zipWith (fun st row => sensibTerm s st.H row.numPositive) pred data

/-- The per-grid-point error terms as claim C9 words them: `k` taken from
the observed hospitalized counts (dataset column 3) instead. -/
def sensibTermsClaim (s : ℚ) (pred : List SEIRState) (data : List ObsRow) : List LogLik :=
  List.zipWith (fun st row => sensibTerm s st.H row.numHospit) pred data

/-- The running-best update of `sensib_finder` (source lines 463-464): the
candidate `(error, grid point)` pair replaces the current best exactly when
its error is strictly smaller. -/
def bestStep (b : ℚ × ℚ) : List (ℚ × ℚ) → ℚ × ℚ
  | [] => b
  | e :: rest => bestStep (if e.1 < b.1 then e else b) rest

/-- The best grid point selected over a (nonempty, in-order) list of
`(error, grid point)` pairs: the source starts from `(math.inf, 0)`, which
the first finite error always replaces, so the scan effectively starts from
the first pair. -/
def bestPoint : List (ℚ × ℚ) → Option (ℚ × ℚ)
  | [] => none
  | e :: rest => some (bestStep e rest)

/-! ### Helper lemmas -/

theorem odeintGo_length (f : SEIRState → ℚ → SEIRDeriv) (y : SEIRState) (t : ℚ)
    (ts : List ℚ) : (odeintGo f y t ts).length = ts.length := by
  induction ts generalizing y t with
  | nil => rfl
  | cons t1 rest ih => simp [odeintGo, ih]

theorem normalizeKN_bounds (k n : ℚ) :
    0 ≤ (normalizeKN k n).1 ∧ (normalizeKN k n).1 ≤ (normalizeKN k n).2 := by
  simp only [normalizeKN]
  split_ifs with h1 h2 h3 h4 h5 h6 <;>
    simp_all <;> first | (constructor <;> linarith) | linarith

theorem normalizeKN_fixed (k n : ℚ) (hk : 0 ≤ k) (hn : k ≤ n) :
    normalizeKN k n = (k, n) := by
  simp only [normalizeKN]
  split_ifs <;> simp_all <;> linarith

/-! ### Claim theorems -/

/-- C5: for every state vector and all parameter values, the seven
compartment components `dS+dE+dI+dR+dH+dC+dD` returned by the ODE
right-hand side sum to exactly zero, so `S+E+I+R+H+C+D` is conserved along
any exact solution. -/
theorem differential_conserves_population (state : SEIRState)
    (time beta sigma gamma hp hcr pc pd pcr s t : ℚ) :
    (differential state time beta sigma gamma hp hcr pc pd pcr s t).dS +
    (differential state time beta sigma gamma hp hcr pc pd pcr s t).dE +
    (differential state time beta sigma gamma hp hcr pc pd pcr s t).dI +
    (differential state time beta sigma gamma hp hcr pc pd pcr s t).dR +
    (differential state time beta sigma gamma hp hcr pc pd pcr s t).dH +
    (differential state time beta sigma gamma hp hcr pc pd pcr s t).dC +
    (differential state time beta sigma gamma hp hcr pc pd pcr s t).dD = 0 := by
  simp only [differential]
  ring

/-- C1, counterexample: at the state `(S,E,I,R,H,C,D,CT,CH) =
(1,0,1,0,0,0,1,0,0)` with `beta = 1` and all other parameters `0`, the
`dS` computed by `differential` is `-1/3` (denominator `S+I+E+R+H+C+D = 3`,
which includes `D`), not `-beta*S*I/(S+I+E+R+H+C) = -1/2` as the claim
states. -/
theorem differential_dS_excludes_D_false :
    (differential ⟨1, 0, 1, 0, 0, 0, 1, 0, 0⟩ 0 1 0 0 0 0 0 0 0 0 0).dS ≠
      -(1 * 1 * 1) / (1 + 1 + 0 + 0 + 0 + 0) := by
  simp only [differential]
  norm_num

/-- C1, amended: the force-of-infection denominator in `differential` is
`S + I + E + R + H + C + D` — it includes the `D` compartment — and `dE`
uses the same denominator. -/
theorem differential_dS_dE_denominator (state : SEIRState)
    (time beta sigma gamma hp hcr pc pd pcr s t : ℚ) :
    (differential state time beta sigma gamma hp hcr pc pd pcr s t).dS =
      -(beta * state.S * state.I) /
        (state.S + state.I + state.E + state.R + state.H + state.C + state.D) ∧
    (differential state time beta sigma gamma hp hcr pc pd pcr s t).dE =
      (beta * state.S * state.I) /
        (state.S + state.I + state.E + state.R + state.H + state.C + state.D) -
        sigma * state.E := by
  exact ⟨rfl, rfl⟩

/-- C6: the degenerate-input normalization of the likelihood channels is
idempotent — applying `normalizeKN` to an already-normalized pair returns
it unchanged, for arbitrary rational inputs. -/
theorem normalizeKN_idempotent (k n : ℚ) :
    normalizeKN (normalizeKN k n).1 (normalizeKN k n).2 = normalizeKN k n := by
  obtain ⟨h1, h2⟩ := normalizeKN_bounds k n
  rw [normalizeKN_fixed _ _ h1 h2]

/-- C2: whenever the pmf value inspected by a per-channel likelihood term
of `objective` — the binomial pmf evaluated at the normalized `(k, n, p)`
triple `channelInputs k n m` — is not strictly positive, the term equals
the fixed overflow floor `-1000`; and every term is either that finite
floor or the logarithm of a strictly positive pmf value, never `-inf` or
NaN. -/
theorem channelLogLik_overflow_floor (k n : ℚ) (m : ℕ) (pmfFn : ℚ → ℚ → ℚ → ℚ)
    (h : pmfFn (channelInputs k n m).1 (channelInputs k n m).2.1
      (channelInputs k n m).2.2 ≤ 0) :
    channelLogLik overflowFloor
      (pmfFn (channelInputs k n m).1 (channelInputs k n m).2.1
        (channelInputs k n m).2.2) = LogLik.floor (-1000) ∧
    ∀ v : ℚ, channelLogLik overflowFloor v = LogLik.floor (-1000) ∨
      ∃ q : ℚ, 0 < q ∧ channelLogLik overflowFloor v = LogLik.log q := by
  constructor
  · simp [channelLogLik, overflowFloor, not_lt.mpr h]
  · intro v
    by_cases hv : 0 < v
    · exact Or.inr ⟨v, hv, by simp [channelLogLik, hv]⟩
    · exact Or.inl (by simp [channelLogLik, overflowFloor, hv])

/-- C2, witness: a channel whose (floating-point) pmf value is exactly `0`
at the normalized inputs — here the raw pair `(5, 3)` with smoothing factor
`6` — produces exactly the floor term `-1000`. -/
theorem channelLogLik_overflow_floor_witness :
    ((fun _ _ _ => (0 : ℚ)) (channelInputs 5 3 6).1 (channelInputs 5 3 6).2.1
      (channelInputs 5 3 6).2.2 ≤ 0) ∧
    channelLogLik overflowFloor
      ((fun _ _ _ => (0 : ℚ)) (channelInputs 5 3 6).1 (channelInputs 5 3 6).2.1
        (channelInputs 5 3 6).2.2) = LogLik.floor (-1000) :=
  ⟨le_refl 0,
    (channelLogLik_overflow_floor 5 3 6 (fun _ _ _ => (0 : ℚ)) (le_refl 0)).1⟩

/-- C3: evaluation of the incidence derivation at the cumulative series
`CT = [10, 30]`: the source's list is `[10, -20, 20]`, so the value used at
time step 1 is `CT[0] - CT[last] = -20` — produced by Python's wraparound
index `-1` together with an off-by-one shift — and not
`CT[1] - CT[0] = 20` as the claim states; the claim's own series is
`[10, 20]`. -/
theorem contaList_wraparound_eval :
    contaList [10, 30] = [10, -20, 20] ∧
    (contaList [10, 30]).getD 1 0 ≠ (30 : ℚ) - 10 ∧
    incidenceClaim [10, 30] = [10, 20] := by
  refine ⟨?_, ?_, ?_⟩ <;> norm_num [contaList, incidenceClaim, List.range_succ]

/-- C4: evaluation of the dataset preparation at the raw positive-test
column `[5, 2, 3]`: the appended column 7 is `[1, 2, 3]`, a verbatim copy
of column 1 after forcing row 0 to `1`, whereas the cumulative sum the
claim describes is `[1, 3, 6]`. -/
theorem importedCol7_not_cumsum_eval :
    importedCol7 [5, 2, 3] = [1, 2, 3] ∧
    cumulPositiveClaim [5, 2, 3] = [1, 3, 6] ∧
    importedCol7 [5, 2, 3] ≠ cumulPositiveClaim [5, 2, 3] := by
  refine ⟨?_, ?_, ?_⟩ <;>
    norm_num [importedCol7, importedCol1, cumulPositiveClaim, cumsum]

/-- Helper: the integrator model returns one row per requested time point. -/
theorem odeint_length (f : SEIRState → ℚ → SEIRDeriv) (y0 : SEIRState)
    (ts : List ℚ) : (odeint f y0 ts).length = ts.length := by
  cases ts with
  | nil => rfl
  | cons t0 rest => simp [odeint, odeintGo_length]

/-- Helper: the time grid `arange d` has `d` entries. -/
theorem arange_length (d : ℕ) : (arange d).length = d := by
  simp only [arange, List.length_map, List.length_range]

/-- Helper: a nonempty time grid starts at `0`. -/
theorem arange_succ_cons (d : ℕ) : ∃ rest, arange (d + 1) = 0 :: rest :=
  ⟨((List.range d).map Nat.succ).map (Nat.cast : ℕ → ℚ),
    by simp only [arange, List.range_succ_eq_map, List.map_cons, Nat.cast_zero]⟩

/-- C7: for every strictly positive duration, initial state and parameter
record, `predict` returns a trajectory with exactly `duration` rows whose
row 0 is the initial state itself (hence equal to it within any
tolerance). -/
theorem predict_length_row0 (d : ℕ) (init : SEIRState) (prm : Params)
    (h : 0 < d) :
    (predict d init prm).length = d ∧ (predict d init prm).head? = some init := by
  obtain ⟨d', rfl⟩ := Nat.exists_eq_succ_of_ne_zero (Nat.pos_iff_ne_zero.mp h)
  obtain ⟨rest, hr⟩ := arange_succ_cons d'
  constructor
  · rw [show predict (d' + 1) init prm =
        odeint (fun y τ => differential y τ prm.beta prm.sigma prm.gamma prm.hp
          prm.hcr prm.pc prm.pd prm.pcr prm.s prm.t) init (arange (d' + 1))
        from rfl,
      odeint_length, arange_length]
  · rw [show predict (d' + 1) init prm =
        odeint (fun y τ => differential y τ prm.beta prm.sigma prm.gamma prm.hp
          prm.hcr prm.pc prm.pd prm.pcr prm.s prm.t) init (arange (d' + 1))
        from rfl,
      hr]
    rfl

/-- C7, witness: with duration 1, initial state
`(999995, 3, 2, 0, 0, 0, 0, 2, 0)` and the default parameters of
`SEIR.__init__`, the trajectory has exactly 1 row and row 0 is the initial
state. -/
theorem predict_length_row0_witness :
    0 < 1 ∧
    (predict 1 ⟨999995, 3, 2, 0, 0, 0, 0, 2, 0⟩
      ⟨3/10, 4/5, 3/20, 1/20, 1/5, 1/10, 1/10, 3/10, 153/200, 3/4⟩).length = 1 ∧
    (predict 1 ⟨999995, 3, 2, 0, 0, 0, 0, 2, 0⟩
      ⟨3/10, 4/5, 3/20, 1/20, 1/5, 1/10, 1/10, 3/10, 153/200, 3/4⟩).head? =
      some ⟨999995, 3, 2, 0, 0, 0, 0, 2, 0⟩ :=
  ⟨Nat.one_pos,
    predict_length_row0 1 ⟨999995, 3, 2, 0, 0, 0, 0, 2, 0⟩
      ⟨3/10, 4/5, 3/20, 1/20, 1/5, 1/10, 1/10, 3/10, 153/200, 3/4⟩ Nat.one_pos⟩

/-- C10: `sensib_finder` builds the 4-element parameter tuple
`(beta, sigma, gamma, s)` and hands it to `predict`; the ODE right-hand
side demands exactly 10 parameter arguments, so the integrator's callback
invocation fails with an argument-count mismatch (modelled by `none`) —
for every duration, initial state and parameter record, no trajectory is
produced. -/
theorem sensibParams_predict_fails (d : ℕ) (init : SEIRState) (prm : Params) :
    predictArgs d init (sensibParams prm) = none := rfl

/-- C8: on completion of `fit` the optimizer's result vector is accepted
unconditionally — the result is the same whatever the success flag says —
and its 10 components overwrite exactly the 10 parameter fields, while the
dataset, the channel weights, the overflow floor, the smoothing toggle,
the binomial smoothing factors, the optimizer step, all 20 bound edges and
the optimizer-choice flags are left untouched. -/
theorem fit_updates_params_only (m : SEIRModel) (res : OptResult) :
    (fit m res).prm =
      { beta := res.x 0, sigma := res.x 1, gamma := res.x 2, hp := res.x 3,
        hcr := res.x 4, pc := res.x 5, pd := res.x 6, pcr := res.x 7,
        s := res.x 8, t := res.x 9 } ∧
    (∀ x : Fin 10 → ℚ, ∀ b b' : Bool,
      fit m { x := x, success := b } = fit m { x := x, success := b' }) ∧
    (fit m res).dataset = m.dataset ∧
    (fit m res).w_1 = m.w_1 ∧ (fit m res).w_2 = m.w_2 ∧
    (fit m res).w_3 = m.w_3 ∧ (fit m res).w_4 = m.w_4 ∧
    (fit m res).w_5 = m.w_5 ∧ (fit m res).w_6 = m.w_6 ∧
    (fit m res).overflow = m.overflow ∧
    (fit m res).smoothing = m.smoothing ∧
    (fit m res).b_s_1 = m.b_s_1 ∧ (fit m res).b_s_2 = m.b_s_2 ∧
    (fit m res).b_s_3 = m.b_s_3 ∧ (fit m res).b_s_4 = m.b_s_4 ∧
    (fit m res).b_s_5 = m.b_s_5 ∧ (fit m res).b_s_6 = m.b_s_6 ∧
    (fit m res).opti_step = m.opti_step ∧
    (fit m res).beta_min = m.beta_min ∧ (fit m res).beta_max = m.beta_max ∧
    (fit m res).sigma_min = m.sigma_min ∧ (fit m res).sigma_max = m.sigma_max ∧
    (fit m res).gamma_min = m.gamma_min ∧ (fit m res).gamma_max = m.gamma_max ∧
    (fit m res).hp_min = m.hp_min ∧ (fit m res).hp_max = m.hp_max ∧
    (fit m res).hcr_min = m.hcr_min ∧ (fit m res).hcr_max = m.hcr_max ∧
    (fit m res).pc_min = m.pc_min ∧ (fit m res).pc_max = m.pc_max ∧
    (fit m res).pd_min = m.pd_min ∧ (fit m res).pd_max = m.pd_max ∧
    (fit m res).pcr_min = m.pcr_min ∧ (fit m res).pcr_max = m.pcr_max ∧
    (fit m res).s_min = m.s_min ∧ (fit m res).s_max = m.s_max ∧
    (fit m res).t_min = m.t_min ∧ (fit m res).t_max = m.t_max ∧
    (fit m res).cobyla = m.cobyla ∧ (fit m res).LBFGSB = m.LBFGSB ∧
    (fit m res).auto = m.auto := by
  refine ⟨rfl, fun x b b' => rfl, ?_⟩
  repeat' constructor

/-- Helper: the running-best scan returns its start value and that value is
minimal, or it returns a strictly later element that strictly beats the
start value and every element before it, and is less than or equal to
every element after it. -/
theorem bestStep_first_min (l : List (ℚ × ℚ)) (b r : ℚ × ℚ)
    (h : bestStep b l = r) :
    (r = b ∧ ∀ q ∈ l, b.1 ≤ q.1) ∨
    ∃ l1 l2, l = l1 ++ r :: l2 ∧ r.1 < b.1 ∧
      (∀ q ∈ l1, r.1 < q.1) ∧ ∀ q ∈ l2, r.1 ≤ q.1 := by
  induction l generalizing b with
  | nil => exact Or.inl ⟨h.symm, by simp⟩
  | cons e rest ih =>
    by_cases he : e.1 < b.1
    · have h' : bestStep e rest = r := by
        rw [← h]; simp [bestStep, he]
      rcases ih e h' with ⟨heq, hmin⟩ | ⟨l1, l2, hsplit, hlt, hl1, hl2⟩
      · right
        refine ⟨[], rest, ?_, ?_, ?_, ?_⟩
        · rw [heq]; rfl
        · rw [heq]; exact he
        · simp
        · intro q hq; rw [heq]; exact hmin q hq
      · right
        refine ⟨e :: l1, l2, ?_, lt_trans hlt he, ?_, hl2⟩
        · rw [hsplit]; rfl
        · intro q hq
          rcases List.mem_cons.mp hq with hx | hx
          · rw [hx]; exact hlt
          · exact hl1 q hx
    · have h' : bestStep b rest = r := by
        rw [← h]; simp [bestStep, he]
      have hbe : b.1 ≤ e.1 := not_lt.mp he
      rcases ih b h' with ⟨heq, hmin⟩ | ⟨l1, l2, hsplit, hlt, hl1, hl2⟩
      · left
        refine ⟨heq, ?_⟩
        intro q hq
        rcases List.mem_cons.mp hq with hx | hx
        · rw [hx]; exact hbe
        · exact hmin q hx
      · right
        refine ⟨e :: l1, l2, ?_, hlt, ?_, hl2⟩
        · rw [hsplit]; rfl
        · intro q hq
          rcases List.mem_cons.mp hq with hx | hx
          · rw [hx]; exact lt_of_lt_of_le hlt hbe
          · exact hl1 q hx

/-- Helper: the selected best pair is an element of the scanned list whose
error is strictly below every earlier element's error and at most every
later element's error — the first-encountered minimum. -/
theorem bestPoint_first_min (e : ℚ × ℚ) (l : List (ℚ × ℚ)) (r : ℚ × ℚ)
    (h : bestPoint (e :: l) = some r) :
    ∃ l1 l2, e :: l = l1 ++ r :: l2 ∧ (∀ q ∈ l1, r.1 < q.1) ∧
      ∀ q ∈ l2, r.1 ≤ q.1 := by
  have hr : bestStep e l = r := by
    simpa only [bestPoint, Option.some.injEq] using h
  rcases bestStep_first_min l e r hr with ⟨heq, hmin⟩ | ⟨l1, l2, hsplit, hlt, hl1, hl2⟩
  · refine ⟨[], l, ?_, by simp, ?_⟩
    · rw [heq]; rfl
    · intro q hq; rw [heq]; exact hmin q hq
  · refine ⟨e :: l1, l2, ?_, ?_, hl2⟩
    · rw [hsplit]; rfl
    · intro q hq
      rcases List.mem_cons.mp hq with hx | hx
      · rw [hx]; exact hlt
      · exact hl1 q hx

/-- C9, counterexample: at sensitivity `1`, a single-row dataset whose
observed daily-positive count is `0` but whose observed hospitalized count
is `1`, with predicted hospitalized `0`, the error terms computed by
`sensib_finder` (which reads `self.dataset[i][1]`) differ from the terms
the claim describes (reading the observed hospitalized counts). -/
theorem sensibTerms_counterexample :
    sensibTermsCode 1 [⟨0, 0, 0, 0, 0, 0, 0, 0, 0⟩] [⟨0, 0, 0, 1, 0, 0, 0, 0⟩] ≠
    sensibTermsClaim 1 [⟨0, 0, 0, 0, 0, 0, 0, 0, 0⟩] [⟨0, 0, 0, 1, 0, 0, 0, 0⟩] := by
  norm_num [sensibTermsCode, sensibTermsClaim, sensibTerm, pyRound, binomPmf]
  decide

/-- C9, amended: in the sensitivity sweep the per-grid-point error is built
from per-time-step binomial log-likelihood terms with `n` taken from the
predicted hospitalized compartment under smoothing factor 2 (`n` doubled
and rounded, `p = s/2`) and `k` taken from the observed **daily positive
test** counts (dataset column 1); there is one term per time step, each is
the guarded log-pmf with floor `-1000`; and the sweep selects as best the
grid point with the numerically smallest error, first-encountered under
iteration order. -/
theorem sensib_error_structure (s : ℚ) (pred : List SEIRState)
    (data : List ObsRow) (i : ℕ) (h1 : i < pred.length) (h2 : i < data.length)
    (h3 : i < (sensibTermsCode s pred data).length) :
    (sensibTermsCode s pred data).length = min pred.length data.length ∧
    (sensibTermsCode s pred data).get ⟨i, h3⟩ =
      channelLogLik (-1000)
        (binomPmf (pyRound (data.get ⟨i, h2⟩).numPositive)
          (pyRound ((pred.get ⟨i, h1⟩).H * 2)) (s / 2)) ∧
    ∀ (e : ℚ × ℚ) (l : List (ℚ × ℚ)) (r : ℚ × ℚ),
      bestPoint (e :: l) = some r →
      ∃ l1 l2, e :: l = l1 ++ r :: l2 ∧ (∀ q ∈ l1, r.1 < q.1) ∧
        ∀ q ∈ l2, r.1 ≤ q.1 := by
  refine ⟨List.length_zipWith _ _ _, ?_, bestPoint_first_min⟩
  simp only [sensibTermsCode, List.get_eq_getElem, List.getElem_zipWith]
  rfl

/-- C9, witness: at sensitivity `1`, a one-row prediction with hospitalized
value `0` and a one-row dataset with observed daily positives `0`, the
single error term is the guarded log-pmf at `k = 0`, `n = 0`, `p = 1/2`;
and over the error list `[(2, 1/10), (1, 1/5)]` the selected best is
`(1, 1/5)`, the first-encountered minimum. -/
theorem sensib_error_structure_witness :
    ((sensibTermsCode 1 [⟨0, 0, 0, 0, 0, 0, 0, 0, 0⟩] [⟨0, 0, 0, 1, 0, 0, 0, 0⟩]).get
      ⟨0, by simp [sensibTermsCode]⟩ =
      channelLogLik (-1000) (binomPmf (pyRound 0) (pyRound (0 * 2)) (1 / 2))) ∧
    ∃ l1 l2, [((2 : ℚ), (1 : ℚ) / 10), (1, 1 / 5)] = l1 ++ ((1 : ℚ), (1 : ℚ) / 5) :: l2 ∧
      (∀ q ∈ l1, (1 : ℚ) < q.1) ∧ ∀ q ∈ l2, (1 : ℚ) ≤ q.1 :=
  ⟨(sensib_error_structure 1 [⟨0, 0, 0, 0, 0, 0, 0, 0, 0⟩] [⟨0, 0, 0, 1, 0, 0, 0, 0⟩] 0
      (by simp) (by simp) (by simp [sensibTermsCode])).2.1,
    (sensib_error_structure 1 [⟨0, 0, 0, 0, 0, 0, 0, 0, 0⟩] [⟨0, 0, 0, 1, 0, 0, 0, 0⟩] 0
      (by simp) (by simp) (by simp [sensibTermsCode])).2.2
      (2, 1 / 10) [(1, 1 / 5)] (1, 1 / 5) (by norm_num [bestPoint, bestStep])⟩
